import Mathlib

/-!
# Verification of the wispr-flow-clone streaming core

Shallow embedding of the real-time audio-to-transcript streaming pipeline:

* `src/src/hooks/useDeepgram.ts` — the WebSocket connection hook
  (connection lifecycle, audio buffering while connecting, transcript
  accumulation), modelled as the state record `DGState` with one Lean
  function per code-level operation / event handler.
* `src/src/App.tsx` — the orchestrator (silence-detection effect,
  stop-and-finalize, session toggling), modelled as `AppState` on top of
  `DGState`, with a timed trace semantics for the one-shot silence timer.

Conventions:

* Audio blobs are opaque; we model them as `Nat`.
* Wall-clock time is a `Nat` (in seconds; the code multiplies the
  configured `silenceTimeout` by 1000 to get milliseconds, we keep the
  same unit for timestamps and deadlines so `setTimeout(cb, T*1000)`
  scheduled at time `t` has absolute deadline `t + T`).
* The browser-owned WebSocket `readyState` is modelled explicitly,
  since `sendAudio` and `disconnectFromDeepgram` branch on it rather
  than on the React `connectionState`.
* Everything the hook sends over the transport is accumulated in a
  `sent` log (audio frames and the `CloseStream` control message), so
  ordering claims become statements about that list.
-/

set_option autoImplicit false

namespace WisprFlow

/-- An opaque audio chunk (`Blob` in the source). -/
abbrev Blob := Nat

/-- `DeepgramConnectionState` from `useDeepgram.ts`:
`"closed" | "connecting" | "connected" | "error"`. -/
inductive ConnState where
  | closed
  | connecting
  | connected
  | error
deriving DecidableEq, Repr

/-- The browser WebSocket `readyState` values the code compares against
(`WebSocket.CONNECTING`, `WebSocket.OPEN`, `WebSocket.CLOSING`,
`WebSocket.CLOSED`). -/
inductive ReadyState where
  | connecting
  | opened
  | closing
  | closed
deriving DecidableEq, Repr

/-- A message written to the transport by the hook: either a raw audio
frame (`socket.send(blob)`) or the graceful `{"type":"CloseStream"}`
control message sent by `disconnectFromDeepgram`. -/
inductive TxMsg where
  | audio (b : Blob)
  | closeStream
deriving DecidableEq, Repr

/-- A parsed inbound Deepgram message, as observed by `socket.onmessage`:
`none` models a JSON parse failure or a message without
`data.channel.alternatives[0].transcript`; `some (t, f)` carries the
transcript string and the `is_final` flag.  (An empty transcript string
is falsy in JS, so the code's truthiness gate skips it; we keep the
empty string in the model and test it explicitly.) -/
abbrev InMsg := Option (String × Bool)

/-- The state of the `useDeepgram` hook: its four `useState` cells, the
`socketRef` (with the browser-owned `readyState` of the held socket),
the `audioQueue` ref, and the log of everything sent to the transport. -/
structure DGState where
  connectionState : ConnState
  realtimeTranscript : String
  errorMsg : Option String
  lastSpeechTime : Nat
  socket : Option ReadyState
  audioQueue : List Blob
  sent : List TxMsg
deriving DecidableEq, Repr

/-- The hook's initial state: `connectionState = "closed"`, empty
transcript, no error, no socket, empty queue. -/
def initDG : DGState :=
  { connectionState := .closed
    realtimeTranscript := ""
    errorMsg := none
    lastSpeechTime := 0
    socket := none
    audioQueue := []
    sent := [] }

/-- JavaScript's `String.prototype.trim()`: strip leading and trailing
whitespace.  (Defined over the character list so that it computes; the
library `String.trim` is byte-position based and does not reduce.  Only
emptiness of the trimmed string matters to the code.) -/
def jsTrim (s : String) : String :=
  ⟨((s.data.dropWhile Char.isWhitespace).reverse.dropWhile
      Char.isWhitespace).reverse⟩

/-- `connectToDeepgram` (the non-throwing path): if `socketRef.current`
is non-null, return immediately; otherwise set state to `"connecting"`,
clear the error, and install a fresh socket (readyState CONNECTING). -/
def connectToDeepgram (s : DGState) : DGState :=
  match s.socket with
  | some _ => s
  | none =>
      { s with connectionState := .connecting
               errorMsg := none
               socket := some .connecting }

/-- `socket.onopen`: the browser moves `readyState` to OPEN as it fires
the event; the handler sets state to `"connected"`, flushes the
buffered audio queue to the socket in order (`forEach(send)`), and
clears the queue.  (The code guards the flush with a non-emptiness
check; flushing an empty queue is the identity, so the model flushes
unconditionally.) -/
def onOpen (s : DGState) : DGState :=
  { s with connectionState := .connected
           socket := some .opened
           sent := s.sent ++ s.audioQueue.map TxMsg.audio
           audioQueue := [] }

/-- `socket.onmessage` at wall-clock time `now`: parse failures are
ignored; if `data.channel.alternatives[0].transcript` is truthy
(non-empty), a whitespace-trimmed-non-empty transcript refreshes
`lastSpeechTime`, and a final result is appended to the transcript with
a single separating space when the transcript is already non-empty
(`prev + (prev ? " " : "") + transcript`). -/
def onMessage (now : Nat) (m : InMsg) (s : DGState) : DGState :=
  match m with
  | none => s
  | some (t, isFinal) =>
      if t = "" then s
      else
        let s1 := if jsTrim t = "" then s else { s with lastSpeechTime := now }
        if isFinal then
          { s1 with realtimeTranscript :=
              s1.realtimeTranscript
                ++ (if s1.realtimeTranscript = "" then "" else " ")
                ++ t }
        else s1

/-- `socket.onclose`: set state to `"closed"` and null the socket ref.
The audio queue is NOT touched by this handler. -/
def onClose (s : DGState) : DGState :=
  { s with connectionState := .closed, socket := none }

/-- `socket.onerror`: record the user-facing error string and set state
to `"error"`.  The handler does not touch the socket ref, but by the
WebSocket spec the error event is only dispatched once the connection
has failed, i.e. with `readyState` already CLOSED; a close event
follows.  The handler does not touch the audio queue either. -/
def onError (s : DGState) : DGState :=
  { s with errorMsg := some "Connection to transcription service failed."
           connectionState := .error
           socket := s.socket.map (fun _ => .closed) }

/-- `disconnectFromDeepgram`: if a socket is held, send the
`CloseStream` control message when (and only when) `readyState` is
OPEN, close the socket and null the ref; in every case set state to
`"closed"`.  The audio queue is NOT touched. -/
def disconnectFromDeepgram (s : DGState) : DGState :=
  match s.socket with
  | some rs =>
      let s1 := if rs = .opened then { s with sent := s.sent ++ [.closeStream] } else s
      { s1 with socket := none, connectionState := .closed }
  | none => { s with connectionState := .closed }

/-- `sendAudio(data)`: if the held socket's `readyState` is OPEN, send
immediately; if CONNECTING, push onto the audio queue; otherwise
(no socket, CLOSING or CLOSED) silently drop the chunk. -/
def sendAudio (c : Blob) (s : DGState) : DGState :=
  match s.socket with
  | some .opened => { s with sent := s.sent ++ [.audio c] }
  | some .connecting => { s with audioQueue := s.audioQueue ++ [c] }
  | _ => s

/-- `resetTranscript`: clear the accumulated transcript and refresh
`lastSpeechTime` to the current time. -/
def resetTranscript (now : Nat) (s : DGState) : DGState :=
  { s with realtimeTranscript := "", lastSpeechTime := now }

/-- Feed a list of chunks to `sendAudio` in order. -/
def sendAll (cs : List Blob) (s : DGState) : DGState :=
  cs.foldl (fun s c => sendAudio c s) s

/-- Feed a list of timestamped inbound messages to `onMessage` in order. -/
def runMsgs (ms : List (Nat × InMsg)) (s : DGState) : DGState :=
  ms.foldl (fun s tm => onMessage tm.1 tm.2 s) s

/-- The states of the hook reachable from `initDG` under the
event-driven semantics.  Socket events (`open`, `message`, `close`,
`error`) are only delivered for the currently held socket: `open` fires
on a CONNECTING socket, messages arrive on an OPEN socket, and
close/error require a socket to be held.  (Callbacks of an already
replaced socket object are outside this model.) -/
inductive Reachable : DGState → Prop where
  | init : Reachable initDG
  | connect {s} : Reachable s → Reachable (connectToDeepgram s)
  | openEvt {s} : Reachable s → s.socket = some .connecting → Reachable (onOpen s)
  | message {s} (now : Nat) (m : InMsg) :
      Reachable s → s.socket = some .opened → Reachable (onMessage now m s)
  | closeEvt {s} : Reachable s → s.socket.isSome → Reachable (onClose s)
  | errorEvt {s} : Reachable s → s.socket.isSome → Reachable (onError s)
  | disconnect {s} : Reachable s → Reachable (disconnectFromDeepgram s)
  | send {s} (c : Blob) : Reachable s → Reachable (sendAudio c s)
  | reset {s} (now : Nat) : Reachable s → Reachable (resetTranscript now s)

/-- The correspondence invariant between the React-level
`connectionState` and the socket ref and its browser-owned
`readyState`, together with the queue-emptiness facts that hold on
every reachable state. -/
def Inv (s : DGState) : Prop :=
  (s.connectionState = .connected → s.socket = some .opened ∧ s.audioQueue = [])
  ∧ (s.connectionState = .connecting → s.socket = some .connecting)
  ∧ (s.connectionState = .closed → s.socket = none)
  ∧ (s.connectionState = .error → s.socket = none ∨ s.socket = some .closed)

theorem inv_init : Inv initDG := by
  refine ⟨?_, ?_, ?_, ?_⟩ <;> intro h <;> simp_all [initDG, Inv]

theorem inv_preserved_connect {s : DGState} (h : Inv s) :
    Inv (connectToDeepgram s) := by
  unfold connectToDeepgram
  cases hs : s.socket with
  | some rs => simpa [hs] using h
  | none => simp [Inv]

theorem inv_preserved_onOpen {s : DGState} :
    Inv (onOpen s) := by
  simp [Inv, onOpen]

theorem inv_preserved_onMessage {s : DGState} (now : Nat) (m : InMsg) (h : Inv s) :
    Inv (onMessage now m s) := by
  unfold onMessage
  match m with
  | none => exact h
  | some (t, isFinal) =>
      simp only []
      split
      · exact h
      · obtain ⟨h1, h2, h3, h4⟩ := h
        split <;> split <;>
          exact ⟨fun hc => h1 hc, fun hc => h2 hc, fun hc => h3 hc, fun hc => h4 hc⟩

theorem inv_preserved_onClose {s : DGState} :
    Inv (onClose s) := by
  simp [Inv, onClose]

theorem inv_preserved_onError {s : DGState} :
    Inv (onError s) := by
  refine ⟨by simp [onError], by simp [onError], by simp [onError], ?_⟩
  intro
  rcases hs : s.socket with _ | rs <;> simp [onError, hs]

theorem inv_preserved_disconnect {s : DGState} :
    Inv (disconnectFromDeepgram s) := by
  rcases hs : s.socket with _ | rs
  · simp [Inv, disconnectFromDeepgram, hs]
  · by_cases hrs : rs = .opened <;>
      simp [Inv, disconnectFromDeepgram, hs, hrs]

theorem inv_preserved_send {s : DGState} (c : Blob) (h : Inv s) :
    Inv (sendAudio c s) := by
  unfold Inv at *
  obtain ⟨h1, h2, h3, h4⟩ := h
  rcases hs : s.socket with _ | rs
  · simp_all [sendAudio]
  · cases rs <;> simp_all [sendAudio]

theorem inv_preserved_reset {s : DGState} (now : Nat) (h : Inv s) :
    Inv (resetTranscript now s) := by
  obtain ⟨h1, h2, h3, h4⟩ := h
  exact ⟨fun hc => h1 hc, fun hc => h2 hc, fun hc => h3 hc, fun hc => h4 hc⟩

/-- Every reachable state of the hook satisfies the correspondence
invariant. -/
theorem reachable_inv {s : DGState} (h : Reachable s) : Inv s := by
  induction h with
  | init => exact inv_init
  | connect _ ih => exact inv_preserved_connect ih
  | openEvt _ _ => exact inv_preserved_onOpen
  | message now m _ _ ih => exact inv_preserved_onMessage now m ih
  | closeEvt _ _ => exact inv_preserved_onClose
  | errorEvt _ _ => exact inv_preserved_onError
  | disconnect _ => exact inv_preserved_disconnect
  | send c _ ih => exact inv_preserved_send c ih
  | reset now _ ih => exact inv_preserved_reset now ih

/-! ## Audio buffering and the Connecting → Connected flush -/

theorem sendAll_nil (s : DGState) : sendAll [] s = s := rfl

theorem sendAll_cons (c : Blob) (cs : List Blob) (s : DGState) :
    sendAll (c :: cs) s = sendAll cs (sendAudio c s) := rfl

theorem sendAudio_connecting {s : DGState} (hs : s.socket = some .connecting)
    (c : Blob) :
    sendAudio c s = { s with audioQueue := s.audioQueue ++ [c] } := by
  simp [sendAudio, hs]

theorem sendAudio_opened {s : DGState} (hs : s.socket = some .opened)
    (c : Blob) :
    sendAudio c s = { s with sent := s.sent ++ [TxMsg.audio c] } := by
  simp [sendAudio, hs]

theorem sendAudio_noSocket {s : DGState} (hs : s.socket = none) (c : Blob) :
    sendAudio c s = s := by
  simp [sendAudio, hs]

theorem sendAudio_closedSocket {s : DGState} (hs : s.socket = some .closed)
    (c : Blob) :
    sendAudio c s = s := by
  simp [sendAudio, hs]

/-- While the socket is CONNECTING, every chunk handed to `sendAudio` is
appended to the audio queue in arrival order and nothing else changes. -/
theorem sendAll_connecting {s : DGState} (hs : s.socket = some .connecting)
    (cs : List Blob) :
    sendAll cs s = { s with audioQueue := s.audioQueue ++ cs } := by
  induction cs generalizing s with
  | nil => simp [sendAll_nil]
  | cons c cs ih =>
      rw [sendAll_cons, sendAudio_connecting hs, ih (by simpa using hs)]
      simp

/-- While the socket is OPEN, every chunk handed to `sendAudio` is
transmitted immediately, in arrival order. -/
theorem sendAll_opened {s : DGState} (hs : s.socket = some .opened)
    (cs : List Blob) :
    sendAll cs s = { s with sent := s.sent ++ cs.map TxMsg.audio } := by
  induction cs generalizing s with
  | nil => simp [sendAll_nil]
  | cons c cs ih =>
      rw [sendAll_cons, sendAudio_opened hs, ih (by simpa using hs)]
      simp

/-! ## Transcript accumulation -/

/-- The append step the code performs for a final result:
`prev + (prev ? " " : "") + transcript`. -/
def joinStep (p t : String) : String :=
  p ++ (if p = "" then "" else " ") ++ t

/-- The texts the code actually appends: transcripts of final events
whose text is truthy (non-empty). -/
def finalTexts : List (Nat × InMsg) → List String
  | [] => []
  | (_, some (t, true)) :: ms =>
      if t = "" then finalTexts ms else t :: finalTexts ms
  | _ :: ms => finalTexts ms

/-- Modelled from the spec wording of C3 / P2: the space-joined string
`t1 + " " + t2 + ... + " " + tN`. -/
def sepJoin : List String → String
  | [] => ""
  | [t] => t
  | t :: ts => t ++ " " ++ sepJoin ts

/-- `" " + t1 + " " + t2 + ...`: the suffix contributed by appending a
list of texts to an already non-empty transcript. -/
def sepSuffix : List String → String
  | [] => ""
  | t :: ts => " " ++ t ++ sepSuffix ts

theorem runMsgs_nil (s : DGState) : runMsgs [] s = s := rfl

theorem runMsgs_cons (now : Nat) (m : InMsg) (ms : List (Nat × InMsg))
    (s : DGState) :
    runMsgs ((now, m) :: ms) s = runMsgs ms (onMessage now m s) := rfl

theorem finalTexts_nil : finalTexts [] = [] := rfl

theorem finalTexts_cons_none (now : Nat) (ms : List (Nat × InMsg)) :
    finalTexts ((now, none) :: ms) = finalTexts ms := rfl

theorem finalTexts_cons_interim (now : Nat) (t : String)
    (ms : List (Nat × InMsg)) :
    finalTexts ((now, some (t, false)) :: ms) = finalTexts ms := rfl

theorem finalTexts_cons_final (now : Nat) (t : String)
    (ms : List (Nat × InMsg)) :
    finalTexts ((now, some (t, true)) :: ms)
      = if t = "" then finalTexts ms else t :: finalTexts ms := rfl

theorem onMessage_none (now : Nat) (s : DGState) :
    onMessage now none s = s := rfl

/-- An interim event never changes the transcript. -/
theorem onMessage_interim_transcript (now : Nat) (t : String) (s : DGState) :
    (onMessage now (some (t, false)) s).realtimeTranscript
      = s.realtimeTranscript := by
  unfold onMessage
  by_cases ht : t = ""
  · simp [ht]
  · by_cases htr : jsTrim t = "" <;> simp [ht, htr]

/-- An empty (falsy) transcript string fails the truthiness gate:
the whole handler body is skipped. -/
theorem onMessage_empty (now : Nat) (f : Bool) (s : DGState) :
    onMessage now (some ("", f)) s = s := by
  simp [onMessage]

/-- A final event with truthy text appends it via `joinStep`. -/
theorem onMessage_final_transcript {t : String} (hne : t ≠ "") (now : Nat)
    (s : DGState) :
    (onMessage now (some (t, true)) s).realtimeTranscript
      = joinStep s.realtimeTranscript t := by
  unfold onMessage
  by_cases htr : jsTrim t = "" <;> simp [hne, htr, joinStep]

/-- The transcript after a message sequence is the fold of `joinStep`
over the final truthy texts. -/
theorem runMsgs_transcript (ms : List (Nat × InMsg)) (s : DGState) :
    (runMsgs ms s).realtimeTranscript
      = (finalTexts ms).foldl joinStep s.realtimeTranscript := by
  induction ms generalizing s with
  | nil => rfl
  | cons hd ms ih =>
      obtain ⟨now, m⟩ := hd
      rw [runMsgs_cons]
      rcases m with _ | ⟨t, f⟩
      · rw [onMessage_none, finalTexts_cons_none, ih]
      · cases f with
        | false =>
            rw [finalTexts_cons_interim, ih, onMessage_interim_transcript]
        | true =>
            by_cases ht : t = ""
            · subst ht
              rw [onMessage_empty, finalTexts_cons_final, if_pos rfl, ih]
            · rw [finalTexts_cons_final, if_neg ht, ih, List.foldl_cons,
                onMessage_final_transcript ht]

theorem str_append_ne_empty_left {p : String} (q : String) (hp : p ≠ "") :
    p ++ q ≠ "" := by
  intro h
  apply hp
  have h2 := congrArg String.data h
  simp at h2
  exact String.ext h2.1

theorem foldl_joinStep_ne (l : List String) (p : String) (hp : p ≠ "") :
    l.foldl joinStep p = p ++ sepSuffix l := by
  induction l generalizing p with
  | nil => simp [sepSuffix]
  | cons t ts ih =>
      have hstep : joinStep p t = p ++ " " ++ t := by
        simp [joinStep, hp]
      rw [List.foldl_cons, hstep,
        ih _ (str_append_ne_empty_left t (str_append_ne_empty_left " " hp))]
      simp [sepSuffix, String.append_assoc]

theorem sepJoin_eq_append (t : String) (ts : List String) :
    sepJoin (t :: ts) = t ++ sepSuffix ts := by
  induction ts generalizing t with
  | nil => simp [sepJoin, sepSuffix]
  | cons u ts ih =>
      show t ++ " " ++ sepJoin (u :: ts) = t ++ sepSuffix (u :: ts)
      rw [ih]
      simp [sepSuffix, String.append_assoc]

/-- Every text collected by `finalTexts` is non-empty. -/
theorem finalTexts_ne (ms : List (Nat × InMsg)) :
    ∀ t ∈ finalTexts ms, t ≠ "" := by
  induction ms with
  | nil => simp [finalTexts_nil]
  | cons hd ms ih =>
      obtain ⟨now, m⟩ := hd
      rcases m with _ | ⟨t, f⟩
      · rw [finalTexts_cons_none]; exact ih
      · cases f with
        | false => rw [finalTexts_cons_interim]; exact ih
        | true =>
            by_cases ht : t = ""
            · rw [finalTexts_cons_final, if_pos ht]; exact ih
            · rw [finalTexts_cons_final, if_neg ht]
              intro u hu
              rcases List.mem_cons.mp hu with h | h
              · exact h ▸ ht
              · exact ih u h

/-! ## Claim theorems (connection hook level) -/

/-- A concrete reachable state whose socket is OPEN and whose
connection state is `"connected"`: connect from the initial state, then
the open event fires. -/
def dgConnected : DGState := onOpen (connectToDeepgram initDG)

theorem reachable_dgConnected : Reachable dgConnected :=
  Reachable.openEvt (Reachable.connect Reachable.init) rfl

/-- Claim C2: every audio chunk passed to `sendAudio` while the socket
is still connecting is queued in arrival order; at the open event all
queued chunks are sent to the transport in FIFO order with no loss, the
queue is cleared, and chunks captured after the transition are sent
after all of them. -/
theorem c2_connecting_chunks_flushed_fifo (s : DGState) (pre post : List Blob)
    (hs : s.socket = some .connecting) :
    (sendAll pre s).audioQueue = s.audioQueue ++ pre
  ∧ (onOpen (sendAll pre s)).audioQueue = []
  ∧ (onOpen (sendAll pre s)).connectionState = .connected
  ∧ (sendAll post (onOpen (sendAll pre s))).sent
      = s.sent ++ (s.audioQueue ++ pre).map TxMsg.audio ++ post.map TxMsg.audio := by
  refine ⟨?_, ?_, ?_, ?_⟩
  · rw [sendAll_connecting hs]
  · rw [sendAll_connecting hs]; rfl
  · rw [sendAll_connecting hs]; rfl
  · rw [sendAll_connecting hs, sendAll_opened rfl]
    simp [onOpen]

/-- Witness for C2 at a concrete connecting state and concrete chunks. -/
theorem c2_witness :
    (sendAll [1, 2] (connectToDeepgram initDG)).audioQueue
        = (connectToDeepgram initDG).audioQueue ++ [1, 2]
  ∧ (onOpen (sendAll [1, 2] (connectToDeepgram initDG))).audioQueue = []
  ∧ (onOpen (sendAll [1, 2] (connectToDeepgram initDG))).connectionState
        = .connected
  ∧ (sendAll [3] (onOpen (sendAll [1, 2] (connectToDeepgram initDG)))).sent
      = (connectToDeepgram initDG).sent
        ++ ((connectToDeepgram initDG).audioQueue ++ [1, 2]).map TxMsg.audio
        ++ [3].map TxMsg.audio :=
  c2_connecting_chunks_flushed_fifo (connectToDeepgram initDG) [1, 2] [3] rfl

/-- Claim C3: starting from an empty transcript, after any sequence of
inbound messages the transcript equals the space-joined concatenation
`t1 + " " + ... + " " + tN` of the non-empty final texts, regardless of
interleaved interim (or malformed, or empty) events. -/
theorem c3_final_texts_space_joined (ms : List (Nat × InMsg)) (s : DGState)
    (h : s.realtimeTranscript = "") :
    (runMsgs ms s).realtimeTranscript = sepJoin (finalTexts ms) := by
  rw [runMsgs_transcript, h]
  rcases hl : finalTexts ms with _ | ⟨t, ts⟩
  · rfl
  · have ht : t ≠ "" := finalTexts_ne ms t (by rw [hl]; exact List.mem_cons_self t ts)
    have hjt : joinStep "" t = t := by simp [joinStep, String.empty_append]
    rw [List.foldl_cons, hjt, foldl_joinStep_ne ts t ht, sepJoin_eq_append]

/-- Witness for C3: interim text for a segment differs from its final
text, a malformed frame is interleaved, two finals are joined. -/
theorem c3_witness :
    (runMsgs
        [(0, some ("the cat", false)), (1, some ("the cat sat", true)),
         (2, none), (3, some ("hello", true))] initDG).realtimeTranscript
      = sepJoin (finalTexts
        [(0, some ("the cat", false)), (1, some ("the cat sat", true)),
         (2, none), (3, some ("hello", true))]) :=
  c3_final_texts_space_joined
    [(0, some ("the cat", false)), (1, some ("the cat sat", true)),
     (2, none), (3, some ("hello", true))] initDG rfl

/-- Claim C6: an interim (non-final) event leaves the transcript
unchanged, refreshes `lastSpeechTime` to the current time exactly when
the event text is non-empty after trimming, and changes no other state
of the hook. -/
theorem c6_interim_frame_effect (s : DGState) (now : Nat) (txt : String) :
    (onMessage now (some (txt, false)) s).realtimeTranscript
        = s.realtimeTranscript
  ∧ (onMessage now (some (txt, false)) s).lastSpeechTime
        = (if jsTrim txt = "" then s.lastSpeechTime else now)
  ∧ (onMessage now (some (txt, false)) s).connectionState = s.connectionState
  ∧ (onMessage now (some (txt, false)) s).errorMsg = s.errorMsg
  ∧ (onMessage now (some (txt, false)) s).socket = s.socket
  ∧ (onMessage now (some (txt, false)) s).audioQueue = s.audioQueue
  ∧ (onMessage now (some (txt, false)) s).sent = s.sent := by
  unfold onMessage
  by_cases ht : txt = ""
  · have htr : jsTrim "" = "" := by decide
    simp [ht, htr]
  · by_cases htr : jsTrim txt = "" <;> simp [ht, htr]

/-- Claim C5: what `sendAudio` does in each connection state of a
reachable hook state: transmit immediately when Connected, queue when
Connecting, silently drop (with no change to any state at all, and no
error recorded) when Closed or Error. -/
theorem c5_sendAudio_by_state (s : DGState) (c : Blob) (h : Reachable s) :
    (s.connectionState = .connected →
        sendAudio c s = { s with sent := s.sent ++ [TxMsg.audio c] })
  ∧ (s.connectionState = .connecting →
        sendAudio c s = { s with audioQueue := s.audioQueue ++ [c] })
  ∧ ((s.connectionState = .closed ∨ s.connectionState = .error) →
        sendAudio c s = s) := by
  obtain ⟨h1, h2, h3, h4⟩ := reachable_inv h
  refine ⟨fun hc => sendAudio_opened (h1 hc).1 c,
          fun hc => sendAudio_connecting (h2 hc) c,
          fun hc => ?_⟩
  rcases hc with hc | hc
  · exact sendAudio_noSocket (h3 hc) c
  · rcases h4 hc with hn | hn
    · exact sendAudio_noSocket hn c
    · exact sendAudio_closedSocket hn c

/-- Witness for C5 at a concrete reachable connected state. -/
theorem c5_witness :
    (dgConnected.connectionState = .connected →
        sendAudio 5 dgConnected
          = { dgConnected with sent := dgConnected.sent ++ [TxMsg.audio 5] })
  ∧ (dgConnected.connectionState = .connecting →
        sendAudio 5 dgConnected
          = { dgConnected with audioQueue := dgConnected.audioQueue ++ [5] })
  ∧ ((dgConnected.connectionState = .closed
        ∨ dgConnected.connectionState = .error) →
        sendAudio 5 dgConnected = dgConnected) :=
  c5_sendAudio_by_state dgConnected 5 reachable_dgConnected

/-- Claim C7: `disconnectFromDeepgram`, from any state, leaves the
connection state `"closed"` and the socket ref cleared; when the socket
is OPEN it first sends the `CloseStream` control message and then
closes; and a second call after the first changes nothing. -/
theorem c7_disconnect_closed_idempotent (s : DGState) :
    (disconnectFromDeepgram s).connectionState = .closed
  ∧ (disconnectFromDeepgram s).socket = none
  ∧ (s.socket = some .opened →
      disconnectFromDeepgram s
        = { s with sent := s.sent ++ [TxMsg.closeStream],
                   socket := none, connectionState := .closed })
  ∧ disconnectFromDeepgram (disconnectFromDeepgram s)
      = disconnectFromDeepgram s := by
  obtain ⟨cs, rt, em, lst, sk, aq, snt⟩ := s
  rcases sk with _ | rs
  · exact ⟨rfl, rfl, fun hcon => Option.noConfusion hcon, rfl⟩
  · by_cases hrs : rs = .opened
    · subst hrs
      exact ⟨rfl, rfl, fun _ => rfl, rfl⟩
    · refine ⟨?_, ?_, ?_, ?_⟩ <;> simp [disconnectFromDeepgram, hrs]

/-- Witness for C7: disconnecting a concrete open connection sends the
graceful close message, then closes. -/
theorem c7_witness :
    disconnectFromDeepgram dgConnected
      = { dgConnected with sent := dgConnected.sent ++ [TxMsg.closeStream],
                           socket := none, connectionState := .closed } :=
  (c7_disconnect_closed_idempotent dgConnected).2.2.1 rfl

/-- A reachable state refuting C4: connect, queue one chunk while
connecting, then disconnect — the state is Closed but the chunk is
still in the queue. -/
def c4state : DGState :=
  disconnectFromDeepgram (sendAudio 7 (connectToDeepgram initDG))

/-- Counterexample to C4 as stated: a disconnect occurring while a
chunk is queued leaves the queue non-empty in the Closed state. -/
theorem c4_counterexample :
    Reachable c4state
  ∧ c4state.connectionState = .closed
  ∧ c4state.audioQueue = [7]
  ∧ c4state.audioQueue ≠ [] :=
  ⟨Reachable.disconnect (Reachable.send 7 (Reachable.connect Reachable.init)),
   by decide, by decide, by decide⟩

/-- Claim C4 (amended): in every reachable state, the pending audio
queue is empty whenever the connection state is Connected; a
disconnect, error, or unsolicited close while chunks are queued leaves
them in the queue (only a successful open flushes and clears it). -/
theorem c4_amended_connected_queue_empty (s : DGState) (h : Reachable s)
    (hc : s.connectionState = .connected) : s.audioQueue = [] :=
  ((reachable_inv h).1 hc).2

/-- Witness for the amended C4 at a concrete reachable connected state. -/
theorem c4_witness : dgConnected.audioQueue = [] :=
  c4_amended_connected_queue_empty dgConnected reachable_dgConnected rfl

/-! ## The orchestrator (`App.tsx`)

The `App` component owns the silence-detection effect, the
stop-and-finalize routine and the session toggle.  Its refs
(`silenceTimerRef`, `lastTranscriptRef`, `isRecordingRef`), the recorder
hook state, the clipboard (as a log of `writeText` calls) and a ghost
counter of completed stop-and-finalize executions are modelled
explicitly.  `silenceTimer` holds the absolute deadline of the pending
one-shot timer, or `none` when no timer is pending (a stale timer id
left in `silenceTimerRef` after the timer fired has no behavioural
effect and is not modelled separately). -/

structure AppState where
  dg : DGState
  transcription : String
  isRecordingRef : Bool
  lastTranscriptRef : String
  silenceTimer : Option Nat
  silenceTimeout : Nat
  autoCopyPaste : Bool
  recActive : Bool
  recIsRecording : Bool
  clipboard : List String
  copiedNotification : Bool
  stopCount : Nat
deriving DecidableEq, Repr

/-- The app's initial state for given settings (`useSettings` is not in
the sources, so the configured values are parameters). -/
def initApp (timeout : Nat) (autoCopy : Bool) : AppState :=
  { dg := initDG
    transcription := ""
    isRecordingRef := false
    lastTranscriptRef := ""
    silenceTimer := none
    silenceTimeout := timeout
    autoCopyPaste := autoCopy
    recActive := false
    recIsRecording := false
    clipboard := []
    copiedNotification := false
    stopCount := 0 }

/-- `clearSilenceTimer`: cancel the pending timer, if any. -/
def clearSilenceTimer (s : AppState) : AppState :=
  { s with silenceTimer := none }

/-- `stopRecording` from `useAudioRecorder`: only acts when a recorder
is held and `isRecording` is set; stops the tracks (releasing the
device) and clears the refs and the flag. -/
def appStopRecording (s : AppState) : AppState :=
  if s.recActive ∧ s.recIsRecording then
    { s with recActive := false, recIsRecording := false }
  else s

/-- `stopRecordingAndCopy`: returns immediately unless
`isRecordingRef.current` is set; otherwise clears the silence timer,
clears the recording flag, snapshots the transcript, stops the
recorder, disconnects, and (if enabled and the snapshot is non-empty)
copies it to the clipboard and shows the notification.  The
notification's own 2-second reset timer is not modelled.  The ghost
`stopCount` counts executions that pass the guard. -/
def stopRecordingAndCopy (s : AppState) : AppState :=
  if s.isRecordingRef then
    let s1 := { s with silenceTimer := none, isRecordingRef := false,
                       stopCount := s.stopCount + 1 }
    let finalTranscript := s1.lastTranscriptRef
    let s2 := appStopRecording s1
    let s3 := { s2 with dg := disconnectFromDeepgram s2.dg }
    if s3.autoCopyPaste ∧ finalTranscript ≠ "" then
      { s3 with clipboard := s3.clipboard ++ [finalTranscript],
                copiedNotification := true }
    else s3
  else s

/-- The body of the silence-detection `useEffect`: sync `transcription`
and `lastTranscriptRef` from the hook's transcript, then — unless
recording is off or the timeout is 0 — cancel any pending timer and
schedule a new one-shot timer `silenceTimeout` seconds from now. -/
def syncEffect (now : Nat) (s : AppState) : AppState :=
  let s1 := { s with transcription := s.dg.realtimeTranscript,
                     lastTranscriptRef := s.dg.realtimeTranscript }
  if ¬s1.isRecordingRef ∨ s1.silenceTimeout = 0 then s1
  else { s1 with silenceTimer := some (now + s1.silenceTimeout) }

/-- The silence timer's callback: the one-shot timer is consumed
(no longer pending), and if recording is still on and the last synced
transcript is non-empty, `stopRecordingAndCopy` runs. -/
def fireSilenceTimer (s : AppState) : AppState :=
  let s1 := { s with silenceTimer := none }
  if s1.isRecordingRef ∧ s1.lastTranscriptRef ≠ "" then
    stopRecordingAndCopy s1
  else s1

/-- Delivery of an inbound Deepgram message to the app: the hook's
`onmessage` runs, and the silence-detection effect re-runs exactly when
its `realtimeTranscript` dependency changed (React compares the
dependency array by value; the other dependencies,
`settings.silenceTimeout` and the `stopRecordingAndCopy` callback
identity, do not change on message delivery). -/
def appOnMessage (now : Nat) (m : InMsg) (s : AppState) : AppState :=
  let dgNew := onMessage now m s.dg
  let s1 := { s with dg := dgNew }
  if dgNew.realtimeTranscript = s.dg.realtimeTranscript then s1
  else syncEffect now s1

/-- A server-initiated close reaching the app: only the hook's
`onclose` handler runs (the effect's dependencies are unchanged). -/
def appOnClose (s : AppState) : AppState :=
  { s with dg := onClose s.dg }

/-- A socket error reaching the app: only the hook's `onerror` handler
runs. -/
def appOnError (s : AppState) : AppState :=
  { s with dg := onError s.dg }

/-- The open event reaching the app: only the hook's `onopen` handler
runs. -/
def appOnOpen (s : AppState) : AppState :=
  { s with dg := onOpen s.dg }

/-- The start branch of `toggleRecording` (successful path): reset the
transcript and refs, set `isRecordingRef`, connect, start the recorder;
followed by the re-run of the silence-detection effect (its
`stopRecordingAndCopy` dependency changes because the recorder's
`isRecording` flipped, and `realtimeTranscript` may have been reset). -/
def startSession (now : Nat) (s : AppState) : AppState :=
  let s1 := { s with transcription := "", lastTranscriptRef := "",
                     isRecordingRef := true,
                     dg := connectToDeepgram (resetTranscript now s.dg),
                     recActive := true, recIsRecording := true }
  syncEffect now s1

/-- One timed step: before an external message arriving at time `t` is
processed, the pending silence timer fires if its deadline passed
strictly before `t`. -/
def stepTimed (s : AppState) (tm : Nat × InMsg) : AppState :=
  let s1 := match s.silenceTimer with
            | some d => if d < tm.1 then fireSilenceTimer s else s
            | none => s
  appOnMessage tm.1 tm.2 s1

/-- Run a timed trace of inbound messages (times nondecreasing). -/
def runTimed (s : AppState) (es : List (Nat × InMsg)) : AppState :=
  es.foldl stepTimed s

/-- Let time advance to `tEnd` with no further external events: the
pending timer fires if its deadline is at or before `tEnd`. -/
def finalizeAt (tEnd : Nat) (s : AppState) : AppState :=
  match s.silenceTimer with
  | some d => if d ≤ tEnd then fireSilenceTimer s else s
  | none => s

/-! ## Orchestrator lemmas -/

/-- Appending a truthy final text always changes the transcript. -/
theorem joinStep_ne {p t : String} (ht : t ≠ "") : joinStep p t ≠ p := by
  intro h
  have h2 := congrArg (fun x => x.data.length) h
  unfold joinStep at h2
  by_cases hp : p = ""
  · simp [hp, String.data_append] at h2
    exact ht (String.ext (List.length_eq_zero.mp h2))
  · simp [hp, String.data_append] at h2

/-- An interim message leaves every orchestrator-level field unchanged
(the effect does not re-run because its transcript dependency did not
change). -/
theorem appOnMessage_interim_fields (t : Nat) (txt : String) (s : AppState) :
    (appOnMessage t (some (txt, false)) s).silenceTimer = s.silenceTimer
  ∧ (appOnMessage t (some (txt, false)) s).isRecordingRef = s.isRecordingRef
  ∧ (appOnMessage t (some (txt, false)) s).lastTranscriptRef
      = s.lastTranscriptRef
  ∧ (appOnMessage t (some (txt, false)) s).stopCount = s.stopCount
  ∧ (appOnMessage t (some (txt, false)) s).silenceTimeout
      = s.silenceTimeout := by
  refine ⟨?_, ?_, ?_, ?_, ?_⟩ <;>
    (simp only [appOnMessage]
     rw [if_pos (onMessage_interim_transcript t txt s.dg)])

/-- A stop-and-finalize that passes the guard clears the recording
flag, clears the timer, and bumps the ghost counter. -/
theorem stopRecordingAndCopy_run {s : AppState} (h : s.isRecordingRef = true) :
    (stopRecordingAndCopy s).isRecordingRef = false
  ∧ (stopRecordingAndCopy s).silenceTimer = none
  ∧ (stopRecordingAndCopy s).stopCount = s.stopCount + 1 := by
  simp only [stopRecordingAndCopy, appStopRecording, h, if_true]
  split_ifs <;> exact ⟨rfl, rfl, rfl⟩

/-- A stop-and-finalize with the recording flag already cleared is an
identity on the whole state. -/
theorem stopRecordingAndCopy_noop {s : AppState} (h : s.isRecordingRef = false) :
    stopRecordingAndCopy s = s := by
  simp [stopRecordingAndCopy, h]

/-- A timer firing against a stopped session with no pending timer
changes nothing. -/
theorem fireSilenceTimer_not_recording {s : AppState}
    (h : s.isRecordingRef = false) (ht : s.silenceTimer = none) :
    fireSilenceTimer s = s := by
  have hself : ({ s with silenceTimer := none } : AppState) = s := by
    rw [← ht]
  simp only [fireSilenceTimer]
  split
  · next hcond =>
      have hrec : s.isRecordingRef = true := hcond.1
      rw [h] at hrec
      exact absurd hrec (by decide)
  · exact hself

/-- A timed step whose message is interim and arrives strictly before
the pending deadline neither fires the timer nor changes any
orchestrator field. -/
theorem stepTimed_interim {s : AppState} {d : Nat} (h1 : s.silenceTimer = some d)
    {tm : Nat × InMsg} (hlt : tm.1 < d) {txt : String}
    (hm : tm.2 = some (txt, false)) :
    (stepTimed s tm).silenceTimer = some d
  ∧ (stepTimed s tm).isRecordingRef = s.isRecordingRef
  ∧ (stepTimed s tm).lastTranscriptRef = s.lastTranscriptRef
  ∧ (stepTimed s tm).stopCount = s.stopCount := by
  obtain ⟨t, m⟩ := tm
  simp only at hm hlt
  subst hm
  have hnd : ¬ d < t := by omega
  simp only [stepTimed, h1, if_neg hnd]
  obtain ⟨f1, f2, f3, f4, _⟩ := appOnMessage_interim_fields t txt s
  exact ⟨f1.trans h1, f2, f3, f4⟩

/-- With the timeout configured to 0 and no timer pending, a timed step
keeps the timeout, schedules nothing and never stops. -/
theorem stepTimed_zero_timeout {s : AppState} (h0 : s.silenceTimeout = 0)
    (ht : s.silenceTimer = none) (tm : Nat × InMsg) :
    (stepTimed s tm).silenceTimeout = 0
  ∧ (stepTimed s tm).silenceTimer = none
  ∧ (stepTimed s tm).stopCount = s.stopCount := by
  simp only [stepTimed, ht]
  by_cases hc : (onMessage tm.1 tm.2 s.dg).realtimeTranscript
      = s.dg.realtimeTranscript
  · simp only [appOnMessage, if_pos hc]
    exact ⟨h0, ht, by trivial⟩
  · simp only [appOnMessage, if_neg hc]
    simp [syncEffect, h0, ht]

/-- The zero-timeout invariant extends over every timed trace. -/
theorem runTimed_zero_timeout {s : AppState} (h0 : s.silenceTimeout = 0)
    (ht : s.silenceTimer = none) (es : List (Nat × InMsg)) :
    (runTimed s es).silenceTimeout = 0
  ∧ (runTimed s es).silenceTimer = none
  ∧ (runTimed s es).stopCount = s.stopCount := by
  induction es generalizing s with
  | nil => exact ⟨h0, ht, rfl⟩
  | cons tm es ih =>
      obtain ⟨a, b, c⟩ := stepTimed_zero_timeout h0 ht tm
      obtain ⟨x, y, z⟩ := ih a b
      exact ⟨x, y, z.trans c⟩

/-! ## Claim theorems (orchestrator level) -/

/-- A concrete mid-session state: session started at time 0 with a
2-second silence timeout, auto-copy off, socket now open. -/
def c1session : AppState := appOnOpen (startSession 0 (initApp 2 false))

/-- A final speech event at t=0 and an interim speech event at t=1. -/
def c1trace : List (Nat × InMsg) :=
  [(0, some ("hi", true)), (1, some ("hi there", false))]

/-- Counterexample to C1 as stated: with timeout 2, a final speech
event at t=0 schedules the stop for t=2; an interim speech event with
non-empty text at t=1 (which does refresh `lastSpeechTime`) does NOT
reschedule the timer to t=3 — the deadline stays t=2 and the
stop-and-finalize callback fires at t=2. -/
theorem c1_counterexample :
    c1session.silenceTimeout = 2
  ∧ (runTimed c1session c1trace).dg.lastSpeechTime = 1
  ∧ (runTimed c1session c1trace).silenceTimer = some 2
  ∧ (runTimed c1session c1trace).silenceTimer ≠ some 3
  ∧ (finalizeAt 2 (runTimed c1session c1trace)).stopCount = 1
  ∧ (finalizeAt 2 (runTimed c1session c1trace)).isRecordingRef = false := by
  decide

/-- Claim C1 (amended): the silence timer is driven by
transcript-changing final events only.  (i) A final event with
non-empty text, while recording with timeout T > 0, cancels any pending
timer and schedules the stop callback for T seconds after the event;
(ii) an interim event never cancels or reschedules the pending timer;
(iii) if a timer is pending for deadline d, recording is on and the
last synced transcript is non-empty, then after any further interim
events strictly before d the callback fires at d and the
stop-and-finalize executes exactly once. -/
theorem c1_amended_timer_semantics :
    (∀ (s : AppState) (t : Nat) (txt : String),
        s.isRecordingRef = true → 0 < s.silenceTimeout → txt ≠ "" →
        (appOnMessage t (some (txt, true)) s).silenceTimer
          = some (t + s.silenceTimeout))
  ∧ (∀ (s : AppState) (t : Nat) (txt : String),
        (appOnMessage t (some (txt, false)) s).silenceTimer = s.silenceTimer)
  ∧ (∀ (s : AppState) (d : Nat) (es : List (Nat × InMsg)),
        s.silenceTimer = some d → s.isRecordingRef = true →
        s.lastTranscriptRef ≠ "" →
        (∀ p ∈ es, p.1 < d ∧ ∃ txt, p.2 = some (txt, false)) →
        (finalizeAt d (runTimed s es)).stopCount = s.stopCount + 1
        ∧ (finalizeAt d (runTimed s es)).isRecordingRef = false
        ∧ (finalizeAt d (runTimed s es)).silenceTimer = none) := by
  refine ⟨?_, ?_, ?_⟩
  · intro s t txt hrec hT hne
    have hch : (onMessage t (some (txt, true)) s.dg).realtimeTranscript
        ≠ s.dg.realtimeTranscript := by
      rw [onMessage_final_transcript hne]
      exact joinStep_ne hne
    simp only [appOnMessage]
    rw [if_neg hch]
    simp [syncEffect, hrec, Nat.pos_iff_ne_zero.mp hT]
  · intro s t txt
    exact (appOnMessage_interim_fields t txt s).1
  · intro s d es
    induction es generalizing s with
    | nil =>
        intro h1 h2 h3 _
        simp only [runTimed, List.foldl_nil, finalizeAt, h1, if_pos (le_refl d)]
        simp only [fireSilenceTimer]
        rw [if_pos (show ({ s with silenceTimer := none } : AppState).isRecordingRef
              = true ∧ ({ s with silenceTimer := none } : AppState).lastTranscriptRef
              ≠ "" from ⟨h2, h3⟩)]
        obtain ⟨a, b, c⟩ :=
          stopRecordingAndCopy_run (s := { s with silenceTimer := none }) h2
        exact ⟨c, a, b⟩
    | cons tm es ih =>
        intro h1 h2 h3 hes
        obtain ⟨hlt, txt, hmsg⟩ := hes tm (List.mem_cons_self tm es)
        obtain ⟨f1, f2, f3, f4⟩ := stepTimed_interim h1 hlt hmsg
        obtain ⟨x, y, z⟩ := ih (stepTimed s tm) f1 (f2.trans h2)
          (by rw [f3]; exact h3)
          (fun p hp => hes p (List.mem_cons_of_mem tm hp))
        refine ⟨?_, y, z⟩
        show (finalizeAt d (runTimed (stepTimed s tm) es)).stopCount
          = s.stopCount + 1
        rw [x, f4]

/-- The state after the final speech event of `c1trace` alone: timer
pending for t=2, transcript "hi". -/
def c1afterSpeech : AppState := runTimed c1session [(0, some ("hi", true))]

/-- Witness for the amended C1 at concrete states: scheduling by a
final event, non-interference of an interim event, and the single fire
at the deadline after an interim-only interval. -/
theorem c1_amended_witness :
    (appOnMessage 10 (some ("speech", true)) c1session).silenceTimer
        = some (10 + c1session.silenceTimeout)
  ∧ (appOnMessage 11 (some ("x", false)) c1session).silenceTimer
        = c1session.silenceTimer
  ∧ ((finalizeAt 2 (runTimed c1afterSpeech [(1, some ("y", false))])).stopCount
        = c1afterSpeech.stopCount + 1
      ∧ (finalizeAt 2 (runTimed c1afterSpeech
            [(1, some ("y", false))])).isRecordingRef = false
      ∧ (finalizeAt 2 (runTimed c1afterSpeech
            [(1, some ("y", false))])).silenceTimer = none) :=
  ⟨c1_amended_timer_semantics.1 c1session 10 "speech" (by decide) (by decide)
      (by decide),
   c1_amended_timer_semantics.2.1 c1session 11 "x",
   c1_amended_timer_semantics.2.2 c1afterSpeech 2 [(1, some ("y", false))]
      (by decide) (by decide) (by decide)
      (by
        intro p hp
        rw [List.mem_singleton] at hp
        subst hp
        exact ⟨by decide, "y", rfl⟩)⟩

/-- Counterexample to C8 as stated: an unsolicited close while the
session is actively recording records no error message at all. -/
theorem c8_counterexample :
    c1session.isRecordingRef = true
  ∧ c1session.dg.connectionState = .connected
  ∧ (appOnClose c1session).dg.errorMsg = none
  ∧ (appOnClose c1session).dg.connectionState = .closed := by
  decide

/-- Claim C8 (amended): an unsolicited close — whether or not a session
is active — is only a state transition to Closed with the socket
cleared; it never records an error and changes nothing else. -/
theorem c8_amended_close_never_records_error (s : AppState) :
    (appOnClose s).dg.connectionState = .closed
  ∧ (appOnClose s).dg.socket = none
  ∧ (appOnClose s).dg.errorMsg = s.dg.errorMsg
  ∧ (appOnClose s).dg.realtimeTranscript = s.dg.realtimeTranscript
  ∧ (appOnClose s).dg.audioQueue = s.dg.audioQueue
  ∧ (appOnClose s).isRecordingRef = s.isRecordingRef
  ∧ (appOnClose s).silenceTimer = s.silenceTimer
  ∧ (appOnClose s).stopCount = s.stopCount :=
  ⟨rfl, rfl, rfl, rfl, rfl, rfl, rfl, rfl⟩

/-- Claim C9: with the silence timeout configured to 0 and no timer
pending, no timer is ever scheduled over any timed message trace and
any amount of further inactivity, and the auto-stop never runs. -/
theorem c9_zero_timeout_never_fires (s : AppState) (es : List (Nat × InMsg))
    (tEnd : Nat) (h0 : s.silenceTimeout = 0) (ht : s.silenceTimer = none) :
    (runTimed s es).silenceTimer = none
  ∧ (finalizeAt tEnd (runTimed s es)).stopCount = s.stopCount
  ∧ (finalizeAt tEnd (runTimed s es)).silenceTimer = none := by
  obtain ⟨a, b, c⟩ := runTimed_zero_timeout h0 ht es
  have hfin : finalizeAt tEnd (runTimed s es) = runTimed s es := by
    unfold finalizeAt
    rw [b]
  exact ⟨b, by rw [hfin, c], by rw [hfin, b]⟩

/-- A session started with silence timeout 0. -/
def zeroTimeoutSession : AppState := appOnOpen (startSession 0 (initApp 0 false))

/-- Witness for C9: a concrete zero-timeout session, speech events and
a long silence. -/
theorem c9_witness :
    (runTimed zeroTimeoutSession
        [(1, some ("hello", true)), (5, some ("x", false))]).silenceTimer = none
  ∧ (finalizeAt 1000 (runTimed zeroTimeoutSession
        [(1, some ("hello", true)), (5, some ("x", false))])).stopCount
      = zeroTimeoutSession.stopCount
  ∧ (finalizeAt 1000 (runTimed zeroTimeoutSession
        [(1, some ("hello", true)), (5, some ("x", false))])).silenceTimer
      = none :=
  c9_zero_timeout_never_fires zeroTimeoutSession
    [(1, some ("hello", true)), (5, some ("x", false))] 1000
    (by decide) (by decide)

/-- Claim C10: within a session, stop-and-finalize executes at most
once.  A first invocation on a recording state clears the recording
flag, the timer, and bumps the execution counter; any invocation on a
non-recording state returns immediately with the state unchanged; a
repeated invocation is the identity; and a late-firing silence timer
after the stop is also a no-op. -/
theorem c10_stop_and_finalize_once (s : AppState) :
    (s.isRecordingRef = true →
        (stopRecordingAndCopy s).isRecordingRef = false
      ∧ (stopRecordingAndCopy s).silenceTimer = none
      ∧ (stopRecordingAndCopy s).stopCount = s.stopCount + 1
      ∧ fireSilenceTimer (stopRecordingAndCopy s) = stopRecordingAndCopy s)
  ∧ (s.isRecordingRef = false → stopRecordingAndCopy s = s)
  ∧ stopRecordingAndCopy (stopRecordingAndCopy s) = stopRecordingAndCopy s := by
  refine ⟨fun h => ?_, fun h => stopRecordingAndCopy_noop h, ?_⟩
  · obtain ⟨h1, h2, h3⟩ := stopRecordingAndCopy_run h
    exact ⟨h1, h2, h3, fireSilenceTimer_not_recording h1 h2⟩
  · by_cases h : s.isRecordingRef = true
    · exact stopRecordingAndCopy_noop (stopRecordingAndCopy_run h).1
    · have hf : s.isRecordingRef = false := by simpa using h
      rw [stopRecordingAndCopy_noop hf, stopRecordingAndCopy_noop hf]

/-- Witness for C10 at the concrete recording session state. -/
theorem c10_witness :
    (stopRecordingAndCopy c1session).isRecordingRef = false
  ∧ (stopRecordingAndCopy c1session).silenceTimer = none
  ∧ (stopRecordingAndCopy c1session).stopCount = c1session.stopCount + 1
  ∧ fireSilenceTimer (stopRecordingAndCopy c1session)
      = stopRecordingAndCopy c1session :=
  (c10_stop_and_finalize_once c1session).1 (by decide)

end WisprFlow
